import Mathlib

/-!
Verification of the driver online-gating flow of the LoadMatrix browser
client: the permission gate (`checkLocationPermissionStatus`), the live
location reporter (`startLiveLocationTracking` / `sendLocationUpdate`),
the location-permission modal, the manual `updateLocation` action and the
auth-context `logout`.

The embedding is a shallow translation of the JavaScript source:
`localStorage` becomes an association-list store, the component's React
state becomes explicit record fields, and the asynchronous callback
structure (geolocation probes, the modal's POST, the repeating interval)
becomes a small-step transition system `step : Config → Event → Option
Config` whose events are the callbacks the browser can deliver.  React
`setState` calls on an unmounted component are no-ops, while plain
JavaScript effects (`localStorage` writes, `setInterval`,
`clearInterval`, `api.post`) run regardless of mount; `applyUI` encodes
this split.
-/

/-- Coordinates as delivered by the geolocation API
(`position.coords.latitude` / `.longitude`).  The flow performs no
arithmetic on them, only data movement, so an exact carrier suffices. -/
structure Coords where
  latitude : Int
  longitude : Int
deriving DecidableEq, Repr

/-- The in-memory location object `{ lat, lng }` built in each success
callback. -/
structure Loc where
  lat : Int
  lng : Int
deriving DecidableEq, Repr

/-- The object `{ lat: position.coords.latitude, lng: position.coords.longitude }`. -/
def locFromPosition (p : Coords) : Loc :=
  { lat := p.latitude, lng := p.longitude }

/-- The body of a `POST /driver/location` request. -/
structure LocationPayload where
  lat : Int
  lng : Int
deriving DecidableEq, Repr

/-- The body `{ lat: location.lat, lng: location.lng }` as built by
`sendLocationUpdate` and `updateLocation`. -/
def mkLocationPayload (l : Loc) : LocationPayload :=
  { lat := l.lat, lng := l.lng }

/-- Browser `localStorage`: an association list of string keys and values.
`setItem` replaces, `removeItem` deletes, `getItem` looks up. -/
structure Store where
  entries : List (String × String)
deriving DecidableEq, Repr

/-- First-match lookup over the entry list. -/
def lookupEntries : List (String × String) → String → Option String
  | [], _ => none
  | p :: t, k => if p.1 = k then some p.2 else lookupEntries t k

/-- Delete every entry with the given key. -/
def removeEntries : List (String × String) → String → List (String × String)
  | [], _ => []
  | p :: t, k => if p.1 = k then removeEntries t k else p :: removeEntries t k

def Store.getItem (s : Store) (k : String) : Option String :=
  lookupEntries s.entries k

def Store.removeItem (s : Store) (k : String) : Store :=
  ⟨removeEntries s.entries k⟩

def Store.setItem (s : Store) (k v : String) : Store :=
  ⟨(k, v) :: removeEntries s.entries k⟩

theorem lookupEntries_removeEntries_self (l : List (String × String)) (k : String) :
    lookupEntries (removeEntries l k) k = none := by
  induction l with
  | nil => rfl
  | cons p t ih =>
      by_cases h : p.1 = k
      · simp [removeEntries, h, ih]
      · simp [removeEntries, lookupEntries, h, ih]

theorem lookupEntries_removeEntries_of_ne (l : List (String × String)) (k k' : String)
    (h : k ≠ k') : lookupEntries (removeEntries l k) k' = lookupEntries l k' := by
  induction l with
  | nil => rfl
  | cons p t ih =>
      by_cases hp : p.1 = k
      · have hp' : ¬ p.1 = k' := by rw [hp]; exact h
        simp [removeEntries, lookupEntries, hp, hp', h, ih]
      · by_cases hq : p.1 = k'
        · simp [removeEntries, lookupEntries, hp, hq, Ne.symm h]
        · simp [removeEntries, lookupEntries, hp, hq, ih]

theorem Store.getItem_removeItem_self (s : Store) (k : String) :
    (s.removeItem k).getItem k = none :=
  lookupEntries_removeEntries_self s.entries k

theorem Store.getItem_removeItem_of_ne (s : Store) (k k' : String) (h : k ≠ k') :
    (s.removeItem k).getItem k' = s.getItem k' :=
  lookupEntries_removeEntries_of_ne s.entries k k' h

theorem Store.getItem_removeItem_none (s : Store) (k k' : String)
    (h : s.getItem k' = none) : (s.removeItem k).getItem k' = none := by
  by_cases hk : k = k'
  · subst hk; exact s.getItem_removeItem_self k
  · rw [Store.getItem_removeItem_of_ne s k k' hk]; exact h

theorem Store.getItem_setItem_self (s : Store) (k v : String) :
    (s.setItem k v).getItem k = some v := by
  simp [Store.setItem, Store.getItem, lookupEntries]

theorem Store.getItem_setItem_of_ne (s : Store) (k v : String) (k' : String)
    (h : k ≠ k') : (s.setItem k v).getItem k' = s.getItem k' := by
  simp only [Store.setItem, Store.getItem, lookupEntries, h, if_neg h]
  exact lookupEntries_removeEntries_of_ne s.entries k k' h

/-- The key `driverLocationPermission_<userId>`. -/
def userLocationKey (uid : String) : String :=
  "driverLocationPermission_" ++ uid

/-- The key `driverLocationPermissionTime_<userId>`. -/
def userLocationTimeKey (uid : String) : String :=
  "driverLocationPermissionTime_" ++ uid

theorem userLocationKey_ne_timeKey (uid : String) :
    userLocationKey uid ≠ userLocationTimeKey uid := by
  intro h
  have hl := congrArg String.length h
  rw [userLocationKey, userLocationTimeKey, String.length_append,
    String.length_append] at hl
  have h1 : "driverLocationPermission_".length = 25 := rfl
  have h2 : "driverLocationPermissionTime_".length = 29 := rfl
  rw [h1, h2] at hl
  omega

/-- JavaScript `parseInt` restricted to what the flow stores: parse the
leading run of decimal digits, `NaN` (no leading digit) becomes `none`. -/
def parseLeadingInt (s : String) : Option Nat :=
  let digits := s.data.takeWhile (fun ch => ch.isDigit)
  if digits.isEmpty then none
  else some (digits.foldl (fun acc ch => acc * 10 + (ch.toNat - 48)) 0)

/-- Which one-shot probe the gate runs on mount. -/
inductive ProbeKind
  | silent
  | full
deriving DecidableEq, Repr

/-- The third argument of `navigator.geolocation.getCurrentPosition`. -/
structure GeoOptions where
  enableHighAccuracy : Bool
  timeout : Nat
  maximumAge : Nat
deriving DecidableEq, Repr

/-- Options of the silent probe in `checkLocationPermissionStatus`. -/
def silentProbeOptions : GeoOptions :=
  { enableHighAccuracy := true, timeout := 5000, maximumAge := 300000 }

/-- Options of the fresh (first-time, non-silent) probe in
`checkLocationPermissionStatus`. -/
def freshProbeOptions : GeoOptions :=
  { enableHighAccuracy := false, timeout := 8000, maximumAge := 300000 }

/-- Options of the periodic probe in `startLiveLocationTracking`. -/
def trackingProbeOptions : GeoOptions :=
  { enableHighAccuracy := true, timeout := 8000, maximumAge := 30000 }

/-- Options of the probe in the modal's `requestLocationPermission`. -/
def modalProbeOptions : GeoOptions :=
  { enableHighAccuracy := true, timeout := 10000, maximumAge := 60000 }

def sevenDaysMs : Nat := 7 * 24 * 60 * 60 * 1000

def oneHourMs : Nat := 60 * 60 * 1000

/-- What `checkLocationPermissionStatus` decides to do on mount. -/
inductive MountAction
  | unsupported
  | probe (kind : ProbeKind) (opts : GeoOptions)
deriving DecidableEq, Repr

/-- The mount-time decision of `checkLocationPermissionStatus`: no probe
when geolocation is unsupported; the silent probe when the stored
permission is `granted` with a stored check time whose parsed age is
under seven days; otherwise the fresh probe.  `now - tv` uses truncated
subtraction, which agrees with the JavaScript comparison
`Date.now() - parseInt(t) < sevenDays` on both sides (a future stamp
gives a negative difference there and `0` here, both under the bound). -/
def checkMountAction (geoSupported : Bool) (st : Store) (uid : String)
    (now : Nat) : MountAction :=
  if geoSupported = false then .unsupported
  else
    match st.getItem (userLocationKey uid), st.getItem (userLocationTimeKey uid) with
    | some perm, some t =>
        if perm = "granted" ∧ t ≠ "" then
          match parseLeadingInt t with
          | some tv =>
              if now - tv < sevenDaysMs then .probe .silent silentProbeOptions
              else .probe .full freshProbeOptions
          | none => .probe .full freshProbeOptions
        else .probe .full freshProbeOptions
    | _, _ => .probe .full freshProbeOptions

/-- The `GeolocationPositionError.code` values relevant to the flow. -/
inductive ErrCode
  | permissionDenied
  | positionUnavailable
  | timeoutExpired
  | otherFailure
deriving DecidableEq, Repr

/-- The `permissionState` of `LocationPermissionModal`. -/
inductive ModalPerm
  | requesting
  | granted
  | denied
  | errored
deriving DecidableEq, Repr

/-- The whole client-side state relevant to the gating flow: the
persistent store, the `DriverDashboard` React state, the modal's React
state, the repeating interval(s), the in-flight callbacks, and the
observable network pushes. -/
structure Config where
  userId : String
  geoSupported : Bool
  now : Nat
  store : Store
  /-- the dashboard component is mounted -/
  mounted : Bool
  loading : Bool
  locationLoading : Bool
  currentLocation : Option Loc
  showLocationModal : Bool
  locationPermissionGranted : Bool
  dashboardBlocked : Bool
  permissionCheckComplete : Bool
  /-- the mount effect running `checkLocationPermissionStatus` has run -/
  mountChecked : Bool
  /-- a gate probe issued by `checkLocationPermissionStatus` is in flight -/
  gateProbe : Option ProbeKind
  /-- modal `permissionState` -/
  modalPerm : ModalPerm
  /-- modal `currentLocation` -/
  modalLoc : Option Loc
  /-- a modal probe is in flight; it carries the `permissionState` its
  `sendLocationUpdate` closure captured at creation (stale closure) -/
  modalProbe : Option ModalPerm
  /-- a modal `POST /driver/location` is in flight, carrying the pushed
  location and the closure-captured `permissionState` -/
  modalPost : Option (Loc × ModalPerm)
  /-- source of fresh `setInterval` handles -/
  nextTimer : Nat
  /-- handles of intervals that have not been cleared -/
  activeTimers : List Nat
  /-- `window.driverLocationInterval` -/
  windowHandle : Option Nat
  /-- periodic probes in flight, tagged with the interval that issued them -/
  tickProbes : List Nat
  /-- log of `POST /driver/location` bodies, newest first -/
  pushes : List LocationPayload
  /-- number of completed `fetchDashboardData` runs -/
  fetches : Nat
deriving DecidableEq, Repr

/-- What the dashboard's return statement shows. -/
inductive View
  | spinner
  | blockedPage
  | content
deriving DecidableEq, Repr

/-- The render logic of `DriverDashboard`: loading or an incomplete
permission check give the spinner; a blocked dashboard gives the
blocking page (which carries the modal); otherwise the dashboard
content. -/
def renderView (c : Config) : View :=
  if c.loading = true ∨ c.permissionCheckComplete = false then .spinner
  else if c.dashboardBlocked = true then .blockedPage
  else .content

/-- Apply React `setState` effects: they update the component state only
while the component is mounted and are no-ops afterwards.  Plain
JavaScript effects (store writes, interval management, network calls)
are applied outside of this wrapper. -/
def applyUI (c : Config) (f : Config → Config) : Config :=
  if c.mounted = true then f c else c

/-- Function `startLiveLocationTracking`: immediately send the initial location,
create a fresh repeating interval, and store its handle in
`window.driverLocationInterval` (overwriting whatever was there). -/
def startTracking (loc : Loc) (c : Config) : Config :=
  { c with
    pushes := mkLocationPayload loc :: c.pushes,
    activeTimers := c.nextTimer :: c.activeTimers,
    windowHandle := some c.nextTimer,
    nextTimer := c.nextTimer + 1 }

/-- Function `handleLocationEnabled`: persist the granted consent with the current
time, update the dashboard state, close the modal, and start live
tracking.  The store write and `startLiveLocationTracking` are plain
JavaScript and run even if the component has been unmounted; the
`setState` calls do not. -/
def handleLocationEnabled (loc : Loc) (c : Config) : Config :=
  let c1 := { c with
    store := (c.store.setItem (userLocationKey c.userId) "granted").setItem
      (userLocationTimeKey c.userId) (Nat.repr c.now) }
  let c2 := applyUI c1 (fun d => { d with
    currentLocation := some loc,
    locationPermissionGranted := true,
    dashboardBlocked := false,
    showLocationModal := false,
    permissionCheckComplete := true })
  startTracking loc c2

/-- The asynchronous occurrences the browser can deliver to the flow. -/
inductive Event
  /-- the mount effect runs `checkLocationPermissionStatus` -/
  | mountEffect
  /-- the gate probe's success callback fires -/
  | gateProbeSuccess (p : Coords)
  /-- the gate probe's error callback fires -/
  | gateProbeFailure (code : ErrCode)
  /-- the modal effect runs `requestLocationPermission` -/
  | modalOpenEffect
  /-- the modal probe's success callback fires -/
  | modalProbeSuccess (p : Coords)
  /-- the modal probe's error callback fires -/
  | modalProbeFailure (code : ErrCode)
  /-- the modal's `sendLocationUpdate` POST settles (`ok` = 2xx) -/
  | modalPostResolve (ok : Bool)
  /-- the user clicks the modal's Continue to Dashboard button -/
  | modalContinueClick
  /-- the effect keyed on `locationPermissionGranted` fetches dashboard
  data and its `finally` clears `loading` -/
  | fetchEffect
  /-- interval `tid` fires and issues a periodic probe -/
  | tickFire (tid : Nat)
  /-- a periodic probe's success callback fires -/
  | tickProbeSuccess (tid : Nat) (p : Coords)
  /-- a periodic probe's error callback fires -/
  | tickProbeFailure (tid : Nat) (code : ErrCode)
  /-- the user clicks the Update Location quick action -/
  | updateLocationClick
  /-- the dashboard unmounts; its cleanup effect clears
  `window.driverLocationInterval` -/
  | unmount
  /-- wall-clock time passes -/
  | elapse (dt : Nat)
deriving DecidableEq, Repr

/-- One step of the flow: dispatch an event against the current
configuration; `none` when the event is not enabled (its callback or
handler cannot occur in this configuration). -/
def step (c : Config) (e : Event) : Option Config :=
  match e with
  | .mountEffect =>
      if c.mounted = true ∧ c.mountChecked = false then
        let c1 := { c with mountChecked := true }
        match checkMountAction c.geoSupported c.store c.userId c.now with
        | .unsupported =>
            some (applyUI c1 (fun d => { d with
              showLocationModal := true, permissionCheckComplete := true }))
        | .probe k _ => some { c1 with gateProbe := some k }
      else none
  | .gateProbeSuccess p =>
      match c.gateProbe with
      | some k =>
          let loc := locFromPosition p
          let c1 := match k with
            | .silent => { c with gateProbe := none }
            | .full => { c with
                gateProbe := none,
                store := (c.store.setItem (userLocationKey c.userId)
                  "granted").setItem (userLocationTimeKey c.userId)
                  (Nat.repr c.now) }
          let c2 := applyUI c1 (fun d => { d with
            currentLocation := some loc,
            locationPermissionGranted := true,
            dashboardBlocked := false,
            permissionCheckComplete := true })
          some (startTracking loc c2)
      | none => none
  | .gateProbeFailure _ =>
      match c.gateProbe with
      | some k =>
          let c1 := match k with
            | .silent => { c with
                gateProbe := none,
                store := (c.store.removeItem (userLocationKey c.userId)).removeItem
                  (userLocationTimeKey c.userId) }
            | .full => { c with
                gateProbe := none,
                store := c.store.setItem (userLocationKey c.userId) "denied" }
          some (applyUI c1 (fun d => { d with
            showLocationModal := true,
            locationPermissionGranted := false,
            dashboardBlocked := true,
            permissionCheckComplete := true }))
      | none => none
  | .modalOpenEffect =>
      if c.mounted = true ∧ c.showLocationModal = true ∧ c.geoSupported = true
          ∧ c.modalProbe = none ∧ renderView c ≠ .spinner then
        some { c with modalProbe := some c.modalPerm }
      else none
  | .modalProbeSuccess p =>
      match c.modalProbe with
      | some captured =>
          let loc := locFromPosition p
          let c1 := { c with
            modalProbe := none,
            pushes := mkLocationPayload loc :: c.pushes,
            modalPost := some (loc, captured) }
          some (applyUI c1 (fun d => { d with
            modalLoc := some loc, modalPerm := .granted }))
      | none => none
  | .modalProbeFailure code =>
      match c.modalProbe with
      | some _ =>
          let c1 := { c with modalProbe := none }
          some (applyUI c1 (fun d => { d with
            modalPerm := if code = .permissionDenied then .denied else .errored }))
      | none => none
  | .modalPostResolve ok =>
      match c.modalPost with
      | some (loc, captured) =>
          let c1 := { c with modalPost := none }
          if ok = true ∧ captured = .granted then
            some (handleLocationEnabled loc c1)
          else some c1
      | none => none
  | .modalContinueClick =>
      match c.modalLoc with
      | some loc =>
          if c.mounted = true ∧ c.showLocationModal = true
              ∧ c.modalPerm = .granted ∧ renderView c ≠ .spinner then
            some (handleLocationEnabled loc c)
          else none
      | none => none
  | .fetchEffect =>
      if c.mounted = true ∧ c.locationPermissionGranted = true then
        some { c with fetches := c.fetches + 1, loading := false }
      else none
  | .tickFire tid =>
      if tid ∈ c.activeTimers then
        some { c with tickProbes := tid :: c.tickProbes }
      else none
  | .tickProbeSuccess tid p =>
      if tid ∈ c.tickProbes then
        let loc := locFromPosition p
        let c1 := { c with
          tickProbes := c.tickProbes.erase tid,
          pushes := mkLocationPayload loc :: c.pushes }
        some (applyUI c1 (fun d => { d with currentLocation := some loc }))
      else none
  | .tickProbeFailure tid code =>
      if tid ∈ c.tickProbes then
        if code = .permissionDenied then
          let c1 := { c with
            tickProbes := c.tickProbes.erase tid,
            store := (c.store.removeItem (userLocationKey c.userId)).removeItem
              (userLocationTimeKey c.userId),
            activeTimers := c.activeTimers.erase tid }
          some (applyUI c1 (fun d => { d with
            showLocationModal := true,
            locationPermissionGranted := false,
            dashboardBlocked := true }))
        else some { c with tickProbes := c.tickProbes.erase tid }
      else none
  | .updateLocationClick =>
      if c.mounted = true ∧ renderView c = .content ∧ c.locationLoading = false then
        match c.currentLocation with
        | some loc => some { c with pushes := mkLocationPayload loc :: c.pushes }
        | none => some c
      else none
  | .unmount =>
      if c.mounted = true then
        let timers := match c.windowHandle with
          | some h => c.activeTimers.erase h
          | none => c.activeTimers
        some { c with mounted := false, activeTimers := timers, windowHandle := none }
      else none
  | .elapse dt => some { c with now := c.now + dt }

/-- The component state a freshly mounted `DriverDashboard` starts from
(the `useState` initial values), over a given user, store, geolocation
capability and clock. -/
def initConfig (uid : String) (st : Store) (geo : Bool) (n : Nat) : Config :=
  { userId := uid
    geoSupported := geo
    now := n
    store := st
    mounted := true
    loading := true
    locationLoading := false
    currentLocation := none
    showLocationModal := false
    locationPermissionGranted := false
    dashboardBlocked := true
    permissionCheckComplete := false
    mountChecked := false
    gateProbe := none
    modalPerm := .requesting
    modalLoc := none
    modalProbe := none
    modalPost := none
    nextTimer := 0
    activeTimers := []
    windowHandle := none
    tickProbes := []
    pushes := []
    fetches := 0 }

/-- Run a list of events in order; fails if any event is not enabled. -/
def runEvents (c : Config) : List Event → Option Config
  | [] => some c
  | e :: es =>
      match step c e with
      | some c' => runEvents c' es
      | none => none

/-- One enabled step. -/
def StepRel (c c' : Config) : Prop := ∃ e, step c e = some c'

/-- Zero or more enabled steps. -/
def ReachFrom (c c' : Config) : Prop := Relation.ReflTransGen StepRel c c'

theorem step_fetches_of_ne (c : Config) (e : Event) (c' : Config)
    (h : step c e = some c') (hne : c'.fetches ≠ c.fetches) :
    c.locationPermissionGranted = true := by
  cases e <;> simp only [step] at h
  case mountEffect =>
      split at h
      · split at h <;>
          (injection h with h; subst h; exfalso; apply hne;
            first
            | rfl
            | (simp only [applyUI]; split <;> rfl))
      · exact Option.noConfusion h
  case gateProbeSuccess p =>
      split at h
      · injection h with h; subst h; exfalso; apply hne
        cases ‹ProbeKind› <;>
          (simp only [startTracking, applyUI];
            first
            | rfl
            | (split <;> rfl))
      · exact Option.noConfusion h
  case gateProbeFailure code =>
      split at h
      · injection h with h; subst h; exfalso; apply hne
        cases ‹ProbeKind› <;>
          (simp only [applyUI];
            first
            | rfl
            | (split <;> rfl))
      · exact Option.noConfusion h
  case modalOpenEffect =>
      split at h
      · injection h with h; subst h; exact absurd rfl hne
      · exact Option.noConfusion h
  case modalProbeSuccess p =>
      split at h
      · injection h with h; subst h; exfalso; apply hne
        simp only [applyUI]
        first
        | rfl
        | (split <;> rfl)
      · exact Option.noConfusion h
  case modalProbeFailure code =>
      split at h
      · injection h with h; subst h; exfalso; apply hne
        simp only [applyUI]
        first
        | rfl
        | (split <;> rfl)
      · exact Option.noConfusion h
  case modalPostResolve ok =>
      split at h
      · split at h <;>
          (injection h with h; subst h; exfalso; apply hne;
            first
            | rfl
            | (simp only [handleLocationEnabled, startTracking, applyUI];
                split <;> rfl))
      · exact Option.noConfusion h
  case modalContinueClick =>
      split at h
      · split at h
        · injection h with h; subst h; exfalso; apply hne
          simp only [handleLocationEnabled, startTracking, applyUI]
          first
          | rfl
          | (split <;> rfl)
        · exact Option.noConfusion h
      · exact Option.noConfusion h
  case fetchEffect =>
      split at h
      · next hcond => exact hcond.2
      · exact Option.noConfusion h
  case tickFire tid =>
      split at h
      · injection h with h; subst h; exact absurd rfl hne
      · exact Option.noConfusion h
  case tickProbeSuccess tid p =>
      split at h
      · injection h with h; subst h; exfalso; apply hne
        simp only [applyUI]
        first
        | rfl
        | (split <;> rfl)
      · exact Option.noConfusion h
  case tickProbeFailure tid code =>
      split at h
      · split at h <;>
          (injection h with h; subst h; exfalso; apply hne)
        · simp only [applyUI]
          first
          | rfl
          | (split <;> rfl)
        · rfl
      · exact Option.noConfusion h
  case updateLocationClick =>
      split at h
      · split at h <;> (injection h with h; subst h; exact absurd rfl hne)
      · exact Option.noConfusion h
  case unmount =>
      split at h
      · injection h with h; subst h; exact absurd rfl hne
      · exact Option.noConfusion h
  case elapse dt =>
      injection h with h; subst h; exact absurd rfl hne

/-- C1: for every mount of the driver dashboard, the dashboard content
(stats, orders, quick actions) renders only with the permission check
complete and the gate open (`dashboardBlocked` false); while checking or
blocked, only the loading spinner or the blocking page with the modal is
rendered; and dashboard data is fetched only in configurations where
location permission has been granted. -/
theorem dashboardGateKeepsContentHidden :
    (∀ c : Config, renderView c = .content →
        c.permissionCheckComplete = true ∧ c.dashboardBlocked = false ∧
          c.loading = false)
    ∧ (∀ c : Config, c.dashboardBlocked = true ∨ c.permissionCheckComplete = false →
        renderView c = .spinner ∨ renderView c = .blockedPage)
    ∧ (∀ c e c', step c e = some c' → c'.fetches ≠ c.fetches →
        c.locationPermissionGranted = true) := by
  refine ⟨?_, ?_, fun c e c' h hne => step_fetches_of_ne c e c' h hne⟩
  · intro c h
    unfold renderView at h
    by_cases h1 : c.loading = true ∨ c.permissionCheckComplete = false
    · rw [if_pos h1] at h; exact absurd h (by decide)
    · rw [if_neg h1] at h
      by_cases h2 : c.dashboardBlocked = true
      · rw [if_pos h2] at h; exact absurd h (by decide)
      · push_neg at h1
        refine ⟨?_, ?_, ?_⟩
        · simpa using h1.2
        · simpa using h2
        · simpa using h1.1
  · intro c hd
    unfold renderView
    by_cases h1 : c.loading = true ∨ c.permissionCheckComplete = false
    · rw [if_pos h1]; left; rfl
    · rw [if_neg h1]
      push_neg at h1
      have h2 : c.dashboardBlocked = true := by
        rcases hd with h | h
        · exact h
        · exact absurd h h1.2
      rw [if_pos h2]; right; rfl

/-- A configuration with the gate open, used to instantiate C1. -/
def openConfigW : Config :=
  { initConfig "7" ⟨[]⟩ true 0 with
    loading := false, permissionCheckComplete := true, dashboardBlocked := false }

/-- Witness for C1 at a concrete open configuration. -/
theorem dashboardGateKeepsContentHidden_w :
    openConfigW.permissionCheckComplete = true ∧
      openConfigW.dashboardBlocked = false ∧ openConfigW.loading = false :=
  dashboardGateKeepsContentHidden.1 openConfigW (by decide)

theorem checkMountAction_supported_cases (st : Store) (uid : String) (now : Nat) :
    checkMountAction true st uid now = .probe .silent silentProbeOptions ∨
      checkMountAction true st uid now = .probe .full freshProbeOptions := by
  rw [checkMountAction]
  rcases h1 : st.getItem (userLocationKey uid) with _ | perm
  · simp [h1]
  · rcases h2 : st.getItem (userLocationTimeKey uid) with _ | t
    · simp [h1, h2]
    · simp only [h1, h2]
      by_cases hg : perm = "granted" ∧ t ≠ ""
      · rcases hp : parseLeadingInt t with _ | tv
        · simp [hg, hp]
        · by_cases h7 : now - tv < sevenDaysMs <;> simp [hg, hp, h7]
      · simp [hg]

theorem checkMountAction_silent_iff (st : Store) (uid : String) (now : Nat) :
    checkMountAction true st uid now = .probe .silent silentProbeOptions ↔
      st.getItem (userLocationKey uid) = some "granted" ∧
        ∃ t, st.getItem (userLocationTimeKey uid) = some t ∧ t ≠ "" ∧
          ∃ tv, parseLeadingInt t = some tv ∧ now - tv < sevenDaysMs := by
  rw [checkMountAction]
  rcases h1 : st.getItem (userLocationKey uid) with _ | perm
  · simp [h1]
  · rcases h2 : st.getItem (userLocationTimeKey uid) with _ | t
    · simp [h1, h2]
    · simp only [h1, h2]
      by_cases hg : perm = "granted" ∧ t ≠ ""
      · rcases hp : parseLeadingInt t with _ | tv
        · simp [hg, hp]
        · by_cases h7 : now - tv < sevenDaysMs <;>
            simp [hg.1, hg.2, hg, hp, h7]
      · rw [if_neg hg]
        by_cases hperm : perm = "granted"
        · have ht : t = "" := by
            by_contra ht
            exact hg ⟨hperm, ht⟩
          simp [hperm, ht]
        · simp [hperm]

/-- C5: with geolocation supported, the gate's mount-time check takes the
silent probe (5-second timeout, cached fixes up to 5 minutes accepted)
exactly when the stored per-user status is `granted` and the stored
check time parses to an age under 7 days; in every other case — stale
record, status not granted, malformed or missing record — it performs
the full non-silent probe (lower accuracy, 8-second timeout) and never
the silent one.  Without geolocation support no probe runs at all. -/
theorem gateSilentProbeExactness (st : Store) (uid : String) (now : Nat) :
    (checkMountAction true st uid now = .probe .silent silentProbeOptions ∨
      checkMountAction true st uid now = .probe .full freshProbeOptions)
    ∧ (checkMountAction true st uid now = .probe .silent silentProbeOptions ↔
        st.getItem (userLocationKey uid) = some "granted" ∧
          ∃ t, st.getItem (userLocationTimeKey uid) = some t ∧ t ≠ "" ∧
            ∃ tv, parseLeadingInt t = some tv ∧ now - tv < sevenDaysMs)
    ∧ checkMountAction false st uid now = .unsupported
    ∧ silentProbeOptions.timeout = 5000
    ∧ silentProbeOptions.maximumAge = 300000
    ∧ freshProbeOptions.timeout = 8000
    ∧ freshProbeOptions.enableHighAccuracy = false :=
  ⟨checkMountAction_supported_cases st uid now,
   checkMountAction_silent_iff st uid now,
   rfl, rfl, rfl, rfl, rfl⟩

/-- A store holding a granted consent stamped at epoch-ms 100, used to
instantiate C5. -/
def grantedStoreW : Store :=
  ⟨[(userLocationKey "7", "granted"), (userLocationTimeKey "7", "100")]⟩

/-- Witness for C5: over a concrete fresh granted record the gate takes
exactly the silent probe. -/
theorem gateSilentProbeExactness_w :
    checkMountAction true grantedStoreW "7" 1000 = .probe .silent silentProbeOptions :=
  (gateSilentProbeExactness grantedStoreW "7" 1000).2.1.mpr
    (by refine ⟨by decide, "100", by decide, by decide, 100, by decide, by decide⟩)

/-- C9: every `POST /driver/location` body produced by a probe success —
periodic, gate (initial), or modal — carries exactly the probe's
latitude and longitude, with no transformation. -/
theorem pushPayloadExact (c : Config) :
    (∀ p : Coords, mkLocationPayload (locFromPosition p) =
        { lat := p.latitude, lng := p.longitude })
    ∧ (∀ tid p c', step c (.tickProbeSuccess tid p) = some c' →
        c'.pushes = mkLocationPayload (locFromPosition p) :: c.pushes)
    ∧ (∀ p c', step c (.gateProbeSuccess p) = some c' →
        c'.pushes = mkLocationPayload (locFromPosition p) :: c.pushes)
    ∧ (∀ p c', step c (.modalProbeSuccess p) = some c' →
        c'.pushes = mkLocationPayload (locFromPosition p) :: c.pushes) := by
  refine ⟨fun p => rfl, ?_, ?_, ?_⟩
  · intro tid p c' h
    simp only [step] at h
    split at h
    · injection h with h; subst h
      simp only [applyUI]
      split <;> rfl
    · exact Option.noConfusion h
  · intro p c' h
    simp only [step] at h
    split at h
    · injection h with h; subst h
      cases ‹ProbeKind› <;>
        (simp only [startTracking, applyUI]; split <;> rfl)
    · exact Option.noConfusion h
  · intro p c' h
    simp only [step] at h
    split at h
    · injection h with h; subst h
      simp only [applyUI]
      split <;> rfl
    · exact Option.noConfusion h

/-- A configuration with one periodic probe in flight, used to
instantiate C9 and C8. -/
def tickConfigW : Config :=
  { initConfig "7" ⟨[]⟩ true 0 with
    loading := false, permissionCheckComplete := true, dashboardBlocked := false,
    locationPermissionGranted := true, mountChecked := true,
    nextTimer := 1, activeTimers := [0], windowHandle := some 0,
    tickProbes := [0] }

/-- Witness for C9 at a concrete periodic probe result. -/
theorem pushPayloadExact_w :
    (runEvents tickConfigW [.tickProbeSuccess 0 ⟨11, 22⟩]).map Config.pushes =
      some [{ lat := 11, lng := 22 }] := by
  have h := (pushPayloadExact tickConfigW).2.1 0 ⟨11, 22⟩
    ((step tickConfigW (.tickProbeSuccess 0 ⟨11, 22⟩)).getD tickConfigW) rfl
  simp only [runEvents]
  rw [show step tickConfigW (.tickProbeSuccess 0 ⟨11, 22⟩) =
      some ((step tickConfigW (.tickProbeSuccess 0 ⟨11, 22⟩)).getD tickConfigW) from rfl]
  simp only [runEvents, Option.map]
  rw [h]
  rfl

/-- C8: a periodic probe failure whose cause is not permission-denied is
only logged: the store, the interval set, the global handle, the gate
state (blocked flag, modal flag, granted flag) and the push log are all
unchanged, the pending probe is consumed, and the firing interval stays
active for the next tick. -/
theorem tickFailureNonDeniedFrame (c : Config) (tid : Nat) (code : ErrCode)
    (c' : Config) (hcode : code ≠ .permissionDenied)
    (h : step c (.tickProbeFailure tid code) = some c') :
    c'.store = c.store ∧ c'.activeTimers = c.activeTimers ∧
    c'.windowHandle = c.windowHandle ∧ c'.dashboardBlocked = c.dashboardBlocked ∧
    c'.showLocationModal = c.showLocationModal ∧
    c'.locationPermissionGranted = c.locationPermissionGranted ∧
    c'.pushes = c.pushes ∧ c'.tickProbes = c.tickProbes.erase tid ∧
    (tid ∈ c.activeTimers → tid ∈ c'.activeTimers) := by
  simp only [step] at h
  rw [if_neg hcode] at h
  split at h
  · injection h with h; subst h
    exact ⟨rfl, rfl, rfl, rfl, rfl, rfl, rfl, rfl, fun hm => hm⟩
  · exact Option.noConfusion h

/-- Witness for C8: over a concrete in-flight probe, a timeout failure
leaves the gate open and the timer active. -/
theorem tickFailureNonDeniedFrame_w :
    ((step tickConfigW (.tickProbeFailure 0 .timeoutExpired)).getD
        tickConfigW).dashboardBlocked = tickConfigW.dashboardBlocked ∧
    ((step tickConfigW (.tickProbeFailure 0 .timeoutExpired)).getD
        tickConfigW).activeTimers = tickConfigW.activeTimers :=
  let h := tickFailureNonDeniedFrame tickConfigW 0 .timeoutExpired
    ((step tickConfigW (.tickProbeFailure 0 .timeoutExpired)).getD tickConfigW)
    (by decide) rfl
  ⟨h.2.2.2.1, h.2.1⟩

/-- A configuration whose gate has a fresh (non-silent) probe in flight
over an empty store, used for C6. -/
def freshProbeConfigW : Config :=
  { initConfig "7" ⟨[]⟩ true 5555 with mountChecked := true, gateProbe := some .full }

/-- Counterexample to C6 as stated: when the first-time probe fails, the
failure handler stores only `driverLocationPermission_<uid> = "denied"`;
the per-user permission-time key is not written (here it stays absent,
where the claim requires the current epoch milliseconds `"5555"`).  The
gate does transition to blocked with the modal shown. -/
theorem freshProbeFailure_timeKeyMissing_cex :
    (runEvents freshProbeConfigW [.gateProbeFailure .permissionDenied]).map
      (fun c => (c.store.getItem (userLocationKey "7"),
        c.store.getItem (userLocationTimeKey "7"),
        c.dashboardBlocked, c.showLocationModal)) =
      some (some "denied", none, true, true) := by
  rfl

/-- C6 (amended): on every failure of the first-time (non-silent) probe,
the gate persists the per-user permission key with value `"denied"`,
leaves the per-user permission-time key unchanged (it does not record
the failure time), and transitions to blocked with the modal shown and
the permission check complete. -/
theorem freshProbeFailureDeniedOnly (c : Config) (code : ErrCode) (c' : Config)
    (hk : c.gateProbe = some .full) (hm : c.mounted = true)
    (h : step c (.gateProbeFailure code) = some c') :
    c'.store.getItem (userLocationKey c.userId) = some "denied" ∧
    c'.store.getItem (userLocationTimeKey c.userId) =
      c.store.getItem (userLocationTimeKey c.userId) ∧
    c'.dashboardBlocked = true ∧ c'.showLocationModal = true ∧
    c'.permissionCheckComplete = true ∧ c'.locationPermissionGranted = false := by
  simp only [step, hk] at h
  injection h with h; subst h
  simp only [applyUI, hm, if_pos]
  refine ⟨?_, ?_, trivial, trivial, trivial, trivial⟩
  · exact Store.getItem_setItem_self c.store (userLocationKey c.userId) "denied"
  · exact Store.getItem_setItem_of_ne c.store (userLocationKey c.userId) "denied"
      (userLocationTimeKey c.userId) (userLocationKey_ne_timeKey c.userId)

/-- Witness for the amended C6 at the concrete blocked-store input. -/
theorem freshProbeFailureDeniedOnly_w :
    ((step freshProbeConfigW (.gateProbeFailure .permissionDenied)).getD
        freshProbeConfigW).store.getItem (userLocationKey "7") = some "denied" ∧
    ((step freshProbeConfigW (.gateProbeFailure .permissionDenied)).getD
        freshProbeConfigW).dashboardBlocked = true :=
  let h := freshProbeFailureDeniedOnly freshProbeConfigW .permissionDenied
    ((step freshProbeConfigW (.gateProbeFailure .permissionDenied)).getD
      freshProbeConfigW) rfl rfl rfl
  ⟨h.1, h.2.2.1⟩

/-- An open dashboard whose in-memory current location is empty, used
for C7. -/
def noLocConfigW : Config :=
  { initConfig "7" ⟨[]⟩ true 0 with
    loading := false, permissionCheckComplete := true, dashboardBlocked := false,
    locationPermissionGranted := true, mountChecked := true }

/-- Counterexample to C7 as stated: invoking the manual Update Location
action with no in-memory location triggers no ad-hoc probe (no probe of
any kind goes into flight) and pushes nothing — the handler only shows
an error toast and returns, where the claim requires an ad-hoc probe
whose result is pushed. -/
theorem updateLocation_noProbe_cex :
    (runEvents noLocConfigW [.updateLocationClick]).map
      (fun c => (c.pushes, c.tickProbes, c.gateProbe, c.modalProbe,
        c.currentLocation)) =
      some ([], [], none, none, none) := by
  rfl

/-- C7 (amended): the manual Update Location action pushes the in-memory
current location exactly when one is available; with no in-memory
location it changes nothing (an error message is shown, no ad-hoc probe
is triggered and nothing is pushed); in either case the periodic timer
state — active intervals, global handle, handle source — is untouched. -/
theorem updateLocationBehaviour (c : Config) (c' : Config)
    (h : step c .updateLocationClick = some c') :
    c'.activeTimers = c.activeTimers ∧ c'.windowHandle = c.windowHandle ∧
    c'.nextTimer = c.nextTimer ∧
    (∀ loc, c.currentLocation = some loc →
        c'.pushes = mkLocationPayload loc :: c.pushes) ∧
    (c.currentLocation = none → c' = c) := by
  simp only [step] at h
  split at h
  · split at h
    next loc heq =>
        injection h with h; subst h
        refine ⟨rfl, rfl, rfl, ?_, ?_⟩
        · intro l hl
          rw [heq] at hl
          injection hl with hl; subst hl; rfl
        · intro hn; rw [heq] at hn; exact Option.noConfusion hn
    next heq =>
        injection h with h; subst h
        refine ⟨rfl, rfl, rfl, ?_, fun _ => rfl⟩
        intro l hl
        rw [heq] at hl
        exact Option.noConfusion hl
  · exact Option.noConfusion h

/-- Witness for the amended C7 at the concrete no-location input. -/
theorem updateLocationBehaviour_w :
    ((step noLocConfigW .updateLocationClick).getD noLocConfigW).activeTimers =
        noLocConfigW.activeTimers ∧
    (step noLocConfigW .updateLocationClick).getD noLocConfigW = noLocConfigW :=
  let h := updateLocationBehaviour noLocConfigW
    ((step noLocConfigW .updateLocationClick).getD noLocConfigW) rfl
  ⟨h.1, h.2.2.2.2 rfl⟩

/-- Timer bookkeeping well-formedness: interval handles are distinct and
below the handle source, as `setInterval` guarantees. -/
def TimerInv (c : Config) : Prop :=
  c.activeTimers.Nodup ∧ (∀ t ∈ c.activeTimers, t < c.nextTimer) ∧
    (∀ t ∈ c.tickProbes, t < c.nextTimer)

/-- How one step may change the timer bookkeeping: nothing; a fresh
interval; a new pending periodic probe from an active interval; a
consumed probe with the issuing interval possibly cleared; or the
unmount cleanup clearing the handle. -/
def TimerShape (c c' : Config) : Prop :=
  (c'.nextTimer = c.nextTimer ∧ c'.activeTimers = c.activeTimers ∧
    c'.tickProbes = c.tickProbes ∧ c'.windowHandle = c.windowHandle)
  ∨ (c'.nextTimer = c.nextTimer + 1 ∧
      c'.activeTimers = c.nextTimer :: c.activeTimers ∧
      c'.tickProbes = c.tickProbes ∧ c'.windowHandle = some c.nextTimer)
  ∨ (∃ tid, tid ∈ c.activeTimers ∧ c'.nextTimer = c.nextTimer ∧
      c'.activeTimers = c.activeTimers ∧ c'.tickProbes = tid :: c.tickProbes ∧
      c'.windowHandle = c.windowHandle)
  ∨ (∃ tid, c'.nextTimer = c.nextTimer ∧
      (c'.activeTimers = c.activeTimers ∨
        c'.activeTimers = c.activeTimers.erase tid) ∧
      c'.tickProbes = c.tickProbes.erase tid ∧
      c'.windowHandle = c.windowHandle)
  ∨ (c'.nextTimer = c.nextTimer ∧ c'.tickProbes = c.tickProbes ∧
      c'.windowHandle = none ∧
      ((∃ hdl, c.windowHandle = some hdl ∧
          c'.activeTimers = c.activeTimers.erase hdl)
        ∨ (c.windowHandle = none ∧ c'.activeTimers = c.activeTimers)))

theorem step_timerShape (c : Config) (e : Event) (c' : Config)
    (h : step c e = some c') : TimerShape c c' := by
  cases e <;> simp only [step] at h
  case mountEffect =>
      split at h
      · split at h <;>
          (injection h with h; subst h; left;
            refine ⟨?_, ?_, ?_, ?_⟩ <;>
              (first
              | rfl
              | (simp only [applyUI]; split <;> rfl)))
      · exact Option.noConfusion h
  case gateProbeSuccess p =>
      split at h
      · injection h with h; subst h
        right; left
        cases ‹ProbeKind› <;>
          (refine ⟨?_, ?_, ?_, ?_⟩ <;>
            (simp only [startTracking, applyUI]; first | rfl | (split <;> rfl)))
      · exact Option.noConfusion h
  case gateProbeFailure code =>
      split at h
      · injection h with h; subst h
        left
        cases ‹ProbeKind› <;>
          (refine ⟨?_, ?_, ?_, ?_⟩ <;>
            (simp only [applyUI]; first | rfl | (split <;> rfl)))
      · exact Option.noConfusion h
  case modalOpenEffect =>
      split at h
      · injection h with h; subst h; left; exact ⟨rfl, rfl, rfl, rfl⟩
      · exact Option.noConfusion h
  case modalProbeSuccess p =>
      split at h
      · injection h with h; subst h
        left
        refine ⟨?_, ?_, ?_, ?_⟩ <;>
          (simp only [applyUI]; first | rfl | (split <;> rfl))
      · exact Option.noConfusion h
  case modalProbeFailure code =>
      split at h
      · injection h with h; subst h
        left
        refine ⟨?_, ?_, ?_, ?_⟩ <;>
          (simp only [applyUI]; first | rfl | (split <;> rfl))
      · exact Option.noConfusion h
  case modalPostResolve ok =>
      split at h
      · split at h
        · injection h with h; subst h
          right; left
          refine ⟨?_, ?_, ?_, ?_⟩ <;>
            (simp only [handleLocationEnabled, startTracking, applyUI];
              first | rfl | (split <;> rfl))
        · injection h with h; subst h; left; exact ⟨rfl, rfl, rfl, rfl⟩
      · exact Option.noConfusion h
  case modalContinueClick =>
      split at h
      · split at h
        · injection h with h; subst h
          right; left
          refine ⟨?_, ?_, ?_, ?_⟩ <;>
            (simp only [handleLocationEnabled, startTracking, applyUI];
              first | rfl | (split <;> rfl))
        · exact Option.noConfusion h
      · exact Option.noConfusion h
  case fetchEffect =>
      split at h
      · injection h with h; subst h; left; exact ⟨rfl, rfl, rfl, rfl⟩
      · exact Option.noConfusion h
  case tickFire tid =>
      split at h
      · next hmem =>
          injection h with h; subst h
          right; right; left
          exact ⟨tid, hmem, rfl, rfl, rfl, rfl⟩
      · exact Option.noConfusion h
  case tickProbeSuccess tid p =>
      split at h
      · injection h with h; subst h
        right; right; right; left
        refine ⟨tid, ?_, Or.inl ?_, ?_, ?_⟩ <;>
          (simp only [applyUI]; first | rfl | (split <;> rfl))
      · exact Option.noConfusion h
  case tickProbeFailure tid code =>
      split at h
      · split at h
        · injection h with h; subst h
          right; right; right; left
          refine ⟨tid, ?_, Or.inr ?_, ?_, ?_⟩ <;>
            (simp only [applyUI]; first | rfl | (split <;> rfl))
        · injection h with h; subst h
          right; right; right; left
          exact ⟨tid, rfl, Or.inl rfl, rfl, rfl⟩
      · exact Option.noConfusion h
  case updateLocationClick =>
      split at h
      · split at h <;>
          (injection h with h; subst h; left; exact ⟨rfl, rfl, rfl, rfl⟩)
      · exact Option.noConfusion h
  case unmount =>
      split at h
      · injection h with h; subst h
        right; right; right; right
        refine ⟨rfl, rfl, rfl, ?_⟩
        rcases hw : c.windowHandle with _ | hdl
        · right; exact ⟨rfl, rfl⟩
        · left; exact ⟨hdl, rfl, rfl⟩
      · exact Option.noConfusion h
  case elapse dt =>
      injection h with h; subst h; left; exact ⟨rfl, rfl, rfl, rfl⟩

theorem timerInv_of_shape (c c' : Config) (hs : TimerShape c c')
    (hi : TimerInv c) : TimerInv c' := by
  obtain ⟨hnd, hba, hbp⟩ := hi
  unfold TimerInv
  rcases hs with ⟨h1, h2, h3, _⟩ | ⟨h1, h2, h3, _⟩ |
    ⟨tid, hmem, h1, h2, h3, _⟩ | ⟨tid, h1, h2, h3, _⟩ | ⟨h1, h3, _, h2⟩
  · rw [h1, h2, h3]; exact ⟨hnd, hba, hbp⟩
  · rw [h1, h2, h3]
    refine ⟨List.nodup_cons.mpr ⟨fun hm => ?_, hnd⟩, ?_, ?_⟩
    · exact absurd (hba _ hm) (lt_irrefl _)
    · intro t ht
      rcases List.mem_cons.mp ht with rfl | ht
      · omega
      · exact Nat.lt_succ_of_lt (hba t ht)
    · intro t ht
      exact Nat.lt_succ_of_lt (hbp t ht)
  · rw [h1, h2, h3]
    refine ⟨hnd, hba, ?_⟩
    intro t ht
    rcases List.mem_cons.mp ht with rfl | ht
    · exact hba t hmem
    · exact hbp t ht
  · rw [h1, h3]
    refine ⟨?_, ?_, ?_⟩
    · rcases h2 with h2 | h2 <;> rw [h2]
      · exact hnd
      · exact hnd.erase tid
    · rcases h2 with h2 | h2 <;> rw [h2]
      · exact hba
      · exact fun t ht => hba t (List.mem_of_mem_erase ht)
    · exact fun t ht => hbp t (List.mem_of_mem_erase ht)
  · rw [h1, h3]
    refine ⟨?_, ?_, hbp⟩
    · rcases h2 with ⟨hdl, _, h2⟩ | ⟨_, h2⟩ <;> rw [h2]
      · exact hnd.erase hdl
      · exact hnd
    · rcases h2 with ⟨hdl, _, h2⟩ | ⟨_, h2⟩ <;> rw [h2]
      · exact fun t ht => hba t (List.mem_of_mem_erase ht)
      · exact hba

theorem step_timerInv (c : Config) (e : Event) (c' : Config)
    (h : step c e = some c') (hi : TimerInv c) : TimerInv c' :=
  timerInv_of_shape c c' (step_timerShape c e c' h) hi

theorem avoid_of_shape (tid : Nat) (c c' : Config) (hs : TimerShape c c')
    (hb : tid < c.nextTimer) (ha : tid ∉ c.activeTimers) :
    tid < c'.nextTimer ∧ tid ∉ c'.activeTimers := by
  rcases hs with ⟨h1, h2, _, _⟩ | ⟨h1, h2, _, _⟩ |
    ⟨tid2, _, h1, h2, _, _⟩ | ⟨tid2, h1, h2, _, _⟩ | ⟨h1, _, _, h2⟩
  · rw [h1, h2]; exact ⟨hb, ha⟩
  · rw [h1, h2]
    refine ⟨Nat.lt_succ_of_lt hb, fun hm => ?_⟩
    rcases List.mem_cons.mp hm with rfl | hm
    · exact absurd hb (lt_irrefl _)
    · exact ha hm
  · rw [h1, h2]; exact ⟨hb, ha⟩
  · rw [h1]
    refine ⟨hb, ?_⟩
    rcases h2 with h2 | h2 <;> rw [h2]
    · exact ha
    · exact fun hm => ha (List.mem_of_mem_erase hm)
  · rw [h1]
    refine ⟨hb, ?_⟩
    rcases h2 with ⟨hdl, _, h2⟩ | ⟨_, h2⟩ <;> rw [h2]
    · exact fun hm => ha (List.mem_of_mem_erase hm)
    · exact ha

theorem avoid_along_reach (tid : Nat) (c c2 : Config) (hr : ReachFrom c c2)
    (hb : tid < c.nextTimer) (ha : tid ∉ c.activeTimers) :
    tid < c2.nextTimer ∧ tid ∉ c2.activeTimers := by
  induction hr with
  | refl => exact ⟨hb, ha⟩
  | tail hab hbc ih =>
      obtain ⟨e, he⟩ := hbc
      exact avoid_of_shape tid _ _ (step_timerShape _ e _ he) ih.1 ih.2

/-- C2: when a periodic probe fails with permission-denied in a mounted
session with well-formed timers, the handler removes both per-user
consent keys from the store, cancels the interval that issued the probe
(it can never fire again anywhere in the rest of the run), and blocks
the dashboard with the modal shown (the accompanying toast carries the
user-visible explanation). -/
theorem tickPermissionDeniedRevokes (c : Config) (tid : Nat) (c' : Config)
    (hm : c.mounted = true) (hinv : TimerInv c)
    (h : step c (.tickProbeFailure tid .permissionDenied) = some c') :
    c'.store.getItem (userLocationKey c.userId) = none ∧
    c'.store.getItem (userLocationTimeKey c.userId) = none ∧
    c'.dashboardBlocked = true ∧ c'.showLocationModal = true ∧
    c'.locationPermissionGranted = false ∧
    tid ∉ c'.activeTimers ∧
    ∀ c2, ReachFrom c' c2 → tid ∉ c2.activeTimers := by
  simp only [step, if_true] at h
  split at h
  case isTrue hmem =>
    injection h with h; subst h
    simp only [applyUI, hm, if_pos]
    have hb : tid < c.nextTimer := hinv.2.2 tid hmem
    have hna : tid ∉ c.activeTimers.erase tid := fun hmm =>
      absurd ((hinv.1.mem_erase_iff).mp hmm).1 (by simp)
    refine ⟨?_, ?_, trivial, trivial, trivial, hna, ?_⟩
    · rw [Store.getItem_removeItem_of_ne _ _ _
        (Ne.symm (userLocationKey_ne_timeKey c.userId))]
      exact Store.getItem_removeItem_self _ _
    · exact Store.getItem_removeItem_self _ _
    · intro c2 hr
      exact (avoid_along_reach tid _ c2 hr hb hna).2
  case isFalse hmem => exact Option.noConfusion h

/-- Witness for C2 at a concrete mounted session with one in-flight
periodic probe. -/
theorem tickPermissionDeniedRevokes_w :
    ((step tickConfigW (.tickProbeFailure 0 .permissionDenied)).getD
        tickConfigW).dashboardBlocked = true ∧
    ((step tickConfigW (.tickProbeFailure 0 .permissionDenied)).getD
        tickConfigW).showLocationModal = true ∧
    0 ∉ ((step tickConfigW (.tickProbeFailure 0 .permissionDenied)).getD
        tickConfigW).activeTimers :=
  let h := tickPermissionDeniedRevokes tickConfigW 0
    ((step tickConfigW (.tickProbeFailure 0 .permissionDenied)).getD tickConfigW)
    rfl ⟨by decide, by decide, by decide⟩ rfl
  ⟨h.2.2.1, h.2.2.2.1, h.2.2.2.2.2.1⟩

/-- The timer state the source intends: either no interval is active, or
exactly the one whose handle sits in `window.driverLocationInterval`. -/
def SingleTimer (c : Config) : Prop :=
  c.activeTimers = [] ∨
    ∃ hdl, c.windowHandle = some hdl ∧ c.activeTimers = [hdl]

theorem singleTimer_of_shape (c c' : Config) (hs : TimerShape c c')
    (hsingle : SingleTimer c)
    (hstart : c'.nextTimer = c.nextTimer ∨ c.activeTimers = []) :
    SingleTimer c' := by
  unfold SingleTimer
  rcases hs with ⟨h1, h2, h3, h4⟩ | ⟨h1, h2, h3, h4⟩ |
    ⟨tid, hmem, h1, h2, h3, h4⟩ | ⟨tid, h1, h2, h3, h4⟩ | ⟨h1, h3, h4, h2⟩
  · rw [h2, h4]; exact hsingle
  · rw [h2, h4]
    have hempty : c.activeTimers = [] := by
      rcases hstart with hh | hh
      · rw [h1] at hh; omega
      · exact hh
    rw [hempty]
    exact Or.inr ⟨c.nextTimer, rfl, rfl⟩
  · rw [h2, h4]; exact hsingle
  · rw [h4]
    rcases h2 with h2 | h2 <;> rw [h2]
    · exact hsingle
    · rcases hsingle with hh | ⟨hdl, hw, hh⟩
      · rw [hh]; exact Or.inl rfl
      · rw [hh]
        by_cases he : hdl = tid
        · subst he; left; simp [List.erase_cons]
        · right
          refine ⟨hdl, hw, ?_⟩
          simp [List.erase_cons, he]
  · rcases h2 with ⟨hdl, hw, h2⟩ | ⟨hw, h2⟩ <;> rw [h2]
    · rcases hsingle with hh | ⟨hdl2, hw2, hh⟩
      · rw [hh]; exact Or.inl rfl
      · rw [hw] at hw2
        injection hw2 with hw2
        subst hw2
        rw [hh]
        left; simp [List.erase_cons]
    · rcases hsingle with hh | ⟨hdl2, hw2, hh⟩
      · exact Or.inl hh
      · rw [hw] at hw2
        exact Option.noConfusion hw2

/-- C3 (amended): at most one interval is active and unmount cancels it,
provided the gate's timer-starting callbacks (`startLiveLocationTracking`
via a gate probe success or `handleLocationEnabled`) only run when no
interval is active.  That proviso is real: the modal can invoke
`handleLocationEnabled` twice for one gate opening — its automatic
success callback (whose closure-captured `permissionState` check passes
with the stale value from an earlier grant) and its Continue to
Dashboard button — and then a second interval starts while the first is
active, only the newest handle is stored, and the unmount cleanup clears
only that one (see the counterexample). -/
theorem singleTimerDiscipline (c : Config) (e : Event) (c' : Config)
    (h : step c e = some c') (hsingle : SingleTimer c)
    (hstart : c'.nextTimer = c.nextTimer ∨ c.activeTimers = []) :
    SingleTimer c' ∧
      (e = .unmount → c'.activeTimers = [] ∧ c'.windowHandle = none) := by
  refine ⟨singleTimer_of_shape c c' (step_timerShape c e c' h) hsingle hstart, ?_⟩
  intro he
  subst he
  simp only [step] at h
  split at h
  · injection h with h; subst h
    refine ⟨?_, rfl⟩
    rcases hsingle with hh | ⟨hdl, hw, hh⟩
    · rw [hh]
      cases c.windowHandle <;> rfl
    · rw [hw, hh]
      simp [List.erase_cons]
  · exact Option.noConfusion h

/-- Witness for the amended C3: a concrete unmount from a single-timer
session cancels the interval and clears the handle. -/
theorem singleTimerDiscipline_w :
    SingleTimer ((step tickConfigW .unmount).getD tickConfigW) ∧
    ((step tickConfigW .unmount).getD tickConfigW).activeTimers = [] ∧
    ((step tickConfigW .unmount).getD tickConfigW).windowHandle = none :=
  let h := singleTimerDiscipline tickConfigW .unmount
    ((step tickConfigW .unmount).getD tickConfigW) rfl
    (Or.inr ⟨0, rfl, rfl⟩) (Or.inl rfl)
  ⟨h.1, h.2 rfl⟩

/-- The store and initial configuration of the C3 counterexample run. -/
def doubleEnableStoreW : Store :=
  ⟨[(userLocationKey "7", "granted"), (userLocationTimeKey "7", "100")]⟩

def doubleEnableInitW : Config := initConfig "7" doubleEnableStoreW true 1000

/-- The C3 counterexample run: silent grant; permission revoked at a
tick (interval 0 cleared, modal reopens); the user re-grants through the
modal (interval 1); revoked again at a tick (interval 1 cleared, modal
reopens with `permissionState` still `granted` from the earlier grant);
the reopened modal immediately shows the Continue button, the user
clicks it (interval 2) while the modal's fresh probe is still in
flight; that probe succeeds and its POST resolves with the
closure-captured check `permissionState === 'granted'` passing, so
`handleLocationEnabled` runs a second time (interval 3). -/
def doubleEnableEventsW : List Event :=
  [ .mountEffect
  , .gateProbeSuccess ⟨11, 22⟩
  , .fetchEffect
  , .tickFire 0
  , .tickProbeFailure 0 .permissionDenied
  , .modalOpenEffect
  , .modalProbeSuccess ⟨33, 44⟩
  , .modalPostResolve true
  , .modalContinueClick
  , .tickFire 1
  , .tickProbeFailure 1 .permissionDenied
  , .modalOpenEffect
  , .modalContinueClick
  , .modalProbeSuccess ⟨55, 66⟩
  , .modalPostResolve true ]

/-- Counterexample to C3 as stated: after the double invocation of the
location-enabled handler, two intervals (handles 2 and 3) are active at
once in the mounted session; unmounting clears only handle 3 — the one
in `window.driverLocationInterval` — and the orphaned interval 2 is
still active after teardown (its next tick is still an enabled event). -/
theorem doubleEnable_twoTimers_cex :
    (runEvents doubleEnableInitW doubleEnableEventsW).map
        (fun c => (c.activeTimers, c.windowHandle, c.mounted)) =
      some ([3, 2], some 3, true) ∧
    (runEvents doubleEnableInitW (doubleEnableEventsW ++ [.unmount])).map
        (fun c => (c.activeTimers, c.mounted)) = some ([2], false) ∧
    step ((runEvents doubleEnableInitW
        (doubleEnableEventsW ++ [.unmount])).getD doubleEnableInitW)
      (.tickFire 2) ≠ none := by
  refine ⟨rfl, rfl, ?_⟩
  intro hcontra
  exact Option.noConfusion (rfl.symm.trans hcontra :
    (some { (runEvents doubleEnableInitW (doubleEnableEventsW ++ [.unmount])).getD
        doubleEnableInitW with
      tickProbes := 2 :: ((runEvents doubleEnableInitW
        (doubleEnableEventsW ++ [.unmount])).getD doubleEnableInitW).tickProbes } :
      Option Config) = none)

/-- A torn-down session with nothing in flight: unmounted, no active
interval, and no pending geolocation callback or modal POST. -/
def Quiescent (c : Config) : Prop :=
  c.mounted = false ∧ c.activeTimers = [] ∧ c.tickProbes = [] ∧
    c.gateProbe = none ∧ c.modalProbe = none ∧ c.modalPost = none

theorem quiescent_step (c : Config) (e : Event) (c' : Config)
    (h : step c e = some c') (hq : Quiescent c) :
    Quiescent c' ∧ c'.pushes = c.pushes := by
  obtain ⟨hm, hat, htp, hgp, hmp, hpo⟩ := hq
  cases e <;> simp only [step] at h
  case mountEffect =>
      split at h
      · next hcond => simp [hm] at hcond
      · exact Option.noConfusion h
  case gateProbeSuccess p =>
      rw [hgp] at h
      exact Option.noConfusion h
  case gateProbeFailure code =>
      rw [hgp] at h
      exact Option.noConfusion h
  case modalOpenEffect =>
      split at h
      · next hcond => simp [hm] at hcond
      · exact Option.noConfusion h
  case modalProbeSuccess p =>
      rw [hmp] at h
      exact Option.noConfusion h
  case modalProbeFailure code =>
      rw [hmp] at h
      exact Option.noConfusion h
  case modalPostResolve ok =>
      rw [hpo] at h
      exact Option.noConfusion h
  case modalContinueClick =>
      split at h
      · split at h
        · next hcond => simp [hm] at hcond
        · exact Option.noConfusion h
      · exact Option.noConfusion h
  case fetchEffect =>
      split at h
      · next hcond => simp [hm] at hcond
      · exact Option.noConfusion h
  case tickFire tid =>
      split at h
      · next hcond => rw [hat] at hcond; simp at hcond
      · exact Option.noConfusion h
  case tickProbeSuccess tid p =>
      split at h
      · next hcond => rw [htp] at hcond; simp at hcond
      · exact Option.noConfusion h
  case tickProbeFailure tid code =>
      split at h
      · next hcond => rw [htp] at hcond; simp at hcond
      · exact Option.noConfusion h
  case updateLocationClick =>
      split at h
      · next hcond => simp [hm] at hcond
      · exact Option.noConfusion h
  case unmount =>
      split at h
      · next hcond => simp [hm] at hcond
      · exact Option.noConfusion h
  case elapse dt =>
      injection h with h; subst h
      exact ⟨⟨hm, hat, htp, hgp, hmp, hpo⟩, rfl⟩

theorem quiescent_reach (c c2 : Config) (hr : ReachFrom c c2)
    (hq : Quiescent c) : Quiescent c2 ∧ c2.pushes = c.pushes := by
  induction hr with
  | refl => exact ⟨hq, rfl⟩
  | tail hab hbc ih =>
      obtain ⟨e, he⟩ := hbc
      obtain ⟨hq2, hp⟩ := quiescent_step _ e _ he ih.1
      exact ⟨hq2, hp.trans ih.2⟩

/-- C4 (amended): unmounting a session whose only active interval (if
any) is the one in the global handle, and which has no geolocation
callback or modal POST in flight, leaves a quiescent configuration from
which no further `POST /driver/location` push can ever happen.  The
in-flight proviso is real: the code has no liveness guard, so a
geolocation callback still pending at teardown runs in full and sends
one more push (see the counterexample). -/
theorem unmountStopsPushes (c c' : Config)
    (hs : SingleTimer c) (hnt : c.tickProbes = []) (hng : c.gateProbe = none)
    (hnm : c.modalProbe = none) (hnp : c.modalPost = none)
    (h : step c .unmount = some c') :
    Quiescent c' ∧ c'.pushes = c.pushes ∧
      ∀ c2, ReachFrom c' c2 → c2.pushes = c.pushes := by
  simp only [step] at h
  split at h
  · injection h with h; subst h
    have hempty : (match c.windowHandle with
        | some hdl => c.activeTimers.erase hdl
        | none => c.activeTimers) = [] := by
      rcases hsingle : c.windowHandle with _ | hdl
      · rcases hs with hh | ⟨hdl2, hw2, hh⟩
        · exact hh
        · rw [hsingle] at hw2; exact Option.noConfusion hw2
      · rcases hs with hh | ⟨hdl2, hw2, hh⟩
        · rw [hh]; rfl
        · rw [hsingle] at hw2
          injection hw2 with hw2
          subst hw2
          rw [hh]
          simp [List.erase_cons]
    refine ⟨⟨rfl, hempty, hnt, hng, hnm, hnp⟩, rfl, ?_⟩
    intro c2 hr
    exact (quiescent_reach _ c2 hr ⟨rfl, hempty, hnt, hng, hnm, hnp⟩).2
  · exact Option.noConfusion h

/-- A mounted single-timer session with nothing in flight, used to
instantiate the amended C4. -/
def unmountReadyW : Config := { tickConfigW with tickProbes := [] }

/-- Witness for the amended C4 at a concrete session. -/
theorem unmountStopsPushes_w :
    Quiescent ((step unmountReadyW .unmount).getD unmountReadyW) ∧
    ((step unmountReadyW .unmount).getD unmountReadyW).pushes =
      unmountReadyW.pushes :=
  let h := unmountStopsPushes unmountReadyW
    ((step unmountReadyW .unmount).getD unmountReadyW)
    (Or.inr ⟨0, rfl, rfl⟩) rfl rfl rfl rfl rfl
  ⟨h.1, h.2.1⟩

/-- The store and initial configuration of the C4 counterexample run. -/
def lateCallbackStoreW : Store :=
  ⟨[(userLocationKey "9", "granted"), (userLocationTimeKey "9", "100")]⟩

def lateCallbackInitW : Config := initConfig "9" lateCallbackStoreW true 1000

/-- Counterexample to C4 as stated: the dashboard is unmounted while the
periodic timer is active and one periodic geolocation request is still
in flight; after teardown exactly one push has happened, and the late
success callback then runs `sendLocationUpdate` unguarded — there is no
liveness check — producing a second `POST /driver/location` push after
teardown. -/
theorem lateCallbackPush_cex :
    (runEvents lateCallbackInitW
        [.mountEffect, .gateProbeSuccess ⟨11, 22⟩, .tickFire 0, .unmount]).map
        (fun c => (c.mounted, c.pushes.length)) = some (false, 1) ∧
    (runEvents lateCallbackInitW
        [.mountEffect, .gateProbeSuccess ⟨11, 22⟩, .tickFire 0, .unmount,
          .tickProbeSuccess 0 ⟨9, 9⟩]).map
        (fun c => (c.mounted, c.pushes.length)) = some (false, 2) :=
  ⟨rfl, rfl⟩

/-- The state the auth context's `logout` works on: persistent storage,
the global interval handle (and which intervals are live), and the
authentication data. -/
structure AuthState where
  store : Store
  windowHandle : Option Nat
  activeTimers : List Nat
  token : Option String
  user : Option String
deriving DecidableEq, Repr

/-- Function `logout` from the auth context: clear the tracking interval if one
is registered and null the global handle; remove the per-user consent
keys when a (truthy) user id is present; clear the token and user; and
remove the legacy non-user-scoped consent keys. -/
def logout (a : AuthState) : AuthState :=
  let timers := match a.windowHandle with
    | some hdl => a.activeTimers.erase hdl
    | none => a.activeTimers
  let st1 := match a.user with
    | some uid =>
        if uid = "" then a.store
        else (a.store.removeItem (userLocationKey uid)).removeItem
          (userLocationTimeKey uid)
    | none => a.store
  let st2 := (st1.removeItem "token").removeItem "user"
  let st3 := (st2.removeItem "driverLocationPermission").removeItem
    "driverLocationPermissionTime"
  { store := st3, windowHandle := none, activeTimers := timers,
    token := none, user := none }

/-- C10: logging out an authenticated user cancels the tracking interval
held in the global handle and nulls the handle, removes both per-user
consent cache keys and both legacy keys, and therefore a later dashboard
mount for the same user over the resulting store never takes the silent
path — it always performs the full probe, at every clock value. -/
theorem logoutClearsConsent (a : AuthState) (uid : String)
    (hu : a.user = some uid) (hne : uid ≠ "") :
    (logout a).windowHandle = none ∧
    (logout a).token = none ∧
    (∀ hdl, a.windowHandle = some hdl → a.activeTimers.Nodup →
        hdl ∉ (logout a).activeTimers) ∧
    (logout a).store.getItem (userLocationKey uid) = none ∧
    (logout a).store.getItem (userLocationTimeKey uid) = none ∧
    (logout a).store.getItem "driverLocationPermission" = none ∧
    (logout a).store.getItem "driverLocationPermissionTime" = none ∧
    (∀ now, checkMountAction true ((logout a).store) uid now =
        .probe .full freshProbeOptions) := by
  have hstore : (logout a).store =
      (((((a.store.removeItem (userLocationKey uid)).removeItem
        (userLocationTimeKey uid)).removeItem "token").removeItem
        "user").removeItem "driverLocationPermission").removeItem
        "driverLocationPermissionTime" := by
    simp only [logout, hu, if_neg hne]
  have hpk : (logout a).store.getItem (userLocationKey uid) = none := by
    rw [hstore]
    refine Store.getItem_removeItem_none _ _ _ ?_
    refine Store.getItem_removeItem_none _ _ _ ?_
    refine Store.getItem_removeItem_none _ _ _ ?_
    refine Store.getItem_removeItem_none _ _ _ ?_
    refine Store.getItem_removeItem_none _ _ _ ?_
    exact Store.getItem_removeItem_self _ _
  have htk : (logout a).store.getItem (userLocationTimeKey uid) = none := by
    rw [hstore]
    refine Store.getItem_removeItem_none _ _ _ ?_
    refine Store.getItem_removeItem_none _ _ _ ?_
    refine Store.getItem_removeItem_none _ _ _ ?_
    refine Store.getItem_removeItem_none _ _ _ ?_
    exact Store.getItem_removeItem_self _ _
  refine ⟨rfl, rfl, ?_, hpk, htk, ?_, ?_, ?_⟩
  · intro hdl hw hnd hmem
    have htimers : (logout a).activeTimers = a.activeTimers.erase hdl := by
      simp only [logout, hw]
    rw [htimers] at hmem
    exact absurd ((hnd.mem_erase_iff).mp hmem).1 (by simp)
  · rw [hstore]
    refine Store.getItem_removeItem_none _ _ _ ?_
    exact Store.getItem_removeItem_self _ _
  · rw [hstore]
    exact Store.getItem_removeItem_self _ _
  · intro now
    rw [checkMountAction, hpk]
    rfl

/-- A logged-in driver with one live interval and cached consent, used
to instantiate C10. -/
def authStateW : AuthState :=
  { store := ⟨[(userLocationKey "7", "granted"),
      (userLocationTimeKey "7", "100"), ("token", "tk"), ("user", "u7")]⟩,
    windowHandle := some 0, activeTimers := [0],
    token := some "tk", user := some "7" }

/-- Witness for C10 at a concrete logged-in state. -/
theorem logoutClearsConsent_w :
    (logout authStateW).windowHandle = none ∧
    (logout authStateW).store.getItem (userLocationKey "7") = none ∧
    (logout authStateW).store.getItem (userLocationTimeKey "7") = none ∧
    checkMountAction true ((logout authStateW).store) "7" 101 =
      .probe .full freshProbeOptions :=
  let h := logoutClearsConsent authStateW "7" rfl (by decide)
  ⟨h.1, h.2.2.2.1, h.2.2.2.2.1, h.2.2.2.2.2.2.2 101⟩
